import Mathlib

/-!
Shallow embedding of the subscription service of `gsPatrick/api-transcript`
(`src/features/Subscription/subscription.service.js`), together with theorems
settling the specification claims about it.

Modelling conventions:
* The persistent store is a record of lists of `User`, `Plan` and
  `SubscriptionOrder` rows; `findByPk` is `List.find?` on the id and
  `row.update` replaces the row with the same id.
* Timestamps are integers measured in days, so `Date.setDate(getDate + d)`
  is `t + d` and `a > b` on dates is `b < a`.  `null` date fields are
  `Option.none`.
* The Mercado Pago gateway is a parameter: `preapproval.get` is a function
  `String → Option Preapproval` where `none` models a thrown gateway error,
  and `preapproval.create` is a field of `PaymentGateway` returning
  `Except GwError PreapprovalCreateResponse`.
* Fallible code is modelled in `Except`; a JS `try { … } catch` that
  swallows the error is the `match` on the `Except` at the same nesting
  level as in the source.
-/

namespace ApiTranscript

/-- A row of the `Plan` catalog table (`price`, `durationInDays`). -/
structure Plan where
  id : Nat
  name : String
  price : Nat
  durationInDays : Nat
deriving Repr, DecidableEq

/-- A row of the `User` table: entitlement fields and usage counters. -/
structure User where
  id : Nat
  email : String
  planId : Option Nat
  planExpiresAt : Option Int
  transcriptionsUsedCount : Nat
  transcriptionMinutesUsed : Nat
  agentUsesUsed : Nat
  assistantUsesUsed : Nat
deriving Repr, DecidableEq

/-- Local order status values stored in `SubscriptionOrder.status`. -/
inductive OrderStatus where
  | pending
  | approved
  | cancelled
deriving Repr, DecidableEq

/-- The provider's preapproval record as returned by
`mercadopago.preapproval.get`: a status string
(`pending`, `authorized`, `paused`, `cancelled`, …) and the echoed
`external_reference` correlation id (`none` when absent/falsy). -/
structure Preapproval where
  id : String
  status : String
  external_reference : Option Nat
deriving Repr, DecidableEq

/-- A row of the `SubscriptionOrder` table. -/
structure SubscriptionOrder where
  id : Nat
  userId : Nat
  planId : Nat
  totalAmount : Nat
  status : OrderStatus
  mercadopagoPreferenceId : Option String
  mercadopagoPaymentId : Option String
  mercadopagoPaymentDetails : Option Preapproval
deriving Repr, DecidableEq

/-- The persistent store: the three tables the subscription core touches. -/
structure St where
  users : List User
  plans : List Plan
  orders : List SubscriptionOrder
deriving Repr, DecidableEq

/-- `User.findByPk`. -/
def findUser (s : St) (uid : Nat) : Option User :=
  s.users.find? (fun u => u.id == uid)

/-- `Plan.findByPk` (also the `currentPlan` / `plan` association lookup). -/
def findPlan (s : St) (pid : Nat) : Option Plan :=
  s.plans.find? (fun p => p.id == pid)

/-- `SubscriptionOrder.findByPk`. -/
def findOrder (s : St) (oid : Nat) : Option SubscriptionOrder :=
  s.orders.find? (fun o => o.id == oid)

/-- `user.update({...})`: per-record atomic replacement by id. -/
def updateUser (s : St) (u : User) : St :=
  { s with users := s.users.map (fun v => if v.id == u.id then u else v) }

/-- `subscriptionOrder.update({...})`: per-record atomic replacement by id. -/
def updateOrder (s : St) (o : SubscriptionOrder) : St :=
  { s with orders := s.orders.map (fun v => if v.id == o.id then o else v) }

/-- The new-expiration computation duplicated at
`subscription.service.js:153-159` (webhook) and `:226-230` (poller):
`let newExpirationDate = new Date(); if (user.planExpiresAt &&
user.planExpiresAt > newExpirationDate) newExpirationDate = new
Date(user.planExpiresAt); newExpirationDate.setDate(getDate() +
plan.durationInDays)`. -/
def grantExpiration (now : Int) (planExpiresAt : Option Int) (durationInDays : Nat) : Int :=
  (match planExpiresAt with
   | some t => if now < t then t else now
   | none => now) + durationInDays

/-- The webhook body `{ type, data: { id } }` received from the gateway. -/
structure WebhookNotification where
  type : String
  dataId : String
deriving Repr, DecidableEq

/-- Body of `processWebhook` (`subscription.service.js:107-185`) inside the
top-level `try`.  `.error s` models a thrown error (here: the
`preapproval.get` call failing) reaching the top-level `catch` with the
store in state `s`. -/
def processWebhookCore (gw : String → Option Preapproval) (now : Int) (s : St)
    (n : WebhookNotification) : Except St St :=
  if n.type = "preapproval" then
    match gw n.dataId with
    | none => .error s
    | some preapprovalBody =>
      match preapprovalBody.external_reference with
      | none => .ok s
      | some subscriptionOrderId =>
        match findOrder s subscriptionOrderId with
        | none => .ok s
        | some subscriptionOrder =>
          let newStatus : OrderStatus :=
            if preapprovalBody.status = "authorized" then .approved
            else if preapprovalBody.status = "cancelled" ∨ preapprovalBody.status = "paused" then
              .cancelled
            else .pending
          let s1 := updateOrder s { subscriptionOrder with
            status := newStatus,
            mercadopagoPaymentId := some n.dataId,
            mercadopagoPaymentDetails := some preapprovalBody }
          match findUser s subscriptionOrder.userId, findPlan s subscriptionOrder.planId with
          | some user, some plan =>
            if newStatus = .approved then
              .ok (updateUser s1 { user with
                planId := some plan.id,
                planExpiresAt := some (grantExpiration now user.planExpiresAt plan.durationInDays),
                transcriptionsUsedCount := 0,
                transcriptionMinutesUsed := 0,
                agentUsesUsed := 0,
                assistantUsesUsed := 0 })
            else if newStatus = .cancelled then
              .ok (updateUser s1 { user with planId := none, planExpiresAt := some now })
            else .ok s1
          | some user, none =>
            if newStatus = .cancelled then
              .ok (updateUser s1 { user with planId := none, planExpiresAt := some now })
            else .ok s1
          | none, _ => .ok s1
  else .ok s

/-- `processWebhook` with its top-level `catch` applied: any internal error
is logged and swallowed, leaving the store as it was at the failure point. -/
def processWebhook (gw : String → Option Preapproval) (now : Int) (s : St)
    (n : WebhookNotification) : St :=
  match processWebhookCore gw now s n with
  | .ok s1 => s1
  | .error s1 => s1

/-- The webhook endpoint as seen by the gateway: it acknowledges success
(`.ok`) whether or not processing failed internally. -/
def handleWebhook (gw : String → Option Preapproval) (now : Int) (s : St)
    (n : WebhookNotification) : Except String St :=
  match processWebhookCore gw now s n with
  | .ok s1 => .ok s1
  | .error s1 => .ok s1

/-- Result of `checkSubscriptionOrderStatus`: the final store, the value
returned (or error thrown) to the caller, and how many gateway calls the
run performed. -/
structure PollOutcome where
  state : St
  result : Except String (Option SubscriptionOrder)
  gatewayCalls : Nat
deriving Repr

/-- `checkSubscriptionOrderStatus` (`subscription.service.js:192-249`).
Note: unlike the webhook path, the status update is gated on
`statusAtualizado !== subscriptionOrder.status`, only
`mercadopagoPaymentDetails` is refreshed (not `mercadopagoPaymentId`),
on approval the usage counters are NOT reset, and there is no user update
at all on a transition to `cancelled`. -/
def checkSubscriptionOrderStatus (gw : String → Option Preapproval) (now : Int) (s : St)
    (subscriptionOrderId : Nat) : PollOutcome :=
  match findOrder s subscriptionOrderId with
  | none => ⟨s, .error "Pedido de assinatura não encontrado.", 0⟩
  | some subscriptionOrder =>
    if subscriptionOrder.status = .approved then ⟨s, .ok (some subscriptionOrder), 0⟩
    else
      match subscriptionOrder.mercadopagoPreferenceId with
      | none => ⟨s, .ok (some subscriptionOrder), 0⟩
      | some preferenceId =>
        match gw preferenceId with
        | none => ⟨s, .ok (some subscriptionOrder), 1⟩
        | some preapprovalData =>
          let statusAtualizado : OrderStatus :=
            if preapprovalData.status = "authorized" then .approved
            else if preapprovalData.status = "cancelled" ∨ preapprovalData.status = "paused" then
              .cancelled
            else subscriptionOrder.status
          if statusAtualizado = subscriptionOrder.status then ⟨s, .ok (some subscriptionOrder), 1⟩
          else
            let s1 := updateOrder s { subscriptionOrder with
              status := statusAtualizado,
              mercadopagoPaymentDetails := some preapprovalData }
            let s2 :=
              if statusAtualizado = .approved then
                match findUser s subscriptionOrder.userId, findPlan s subscriptionOrder.planId with
                | some user, some plan =>
                  updateUser s1 { user with
                    planId := some plan.id,
                    planExpiresAt :=
                      some (grantExpiration now user.planExpiresAt plan.durationInDays) }
                | _, _ => s1
              else s1
            ⟨s2, .ok (findOrder s2 subscriptionOrderId), 1⟩

/-- `error.response?.data?.message` of a gateway error (`none` when the
error carries no provider response payload). -/
structure GwError where
  responseDataMessage : Option String
deriving Repr, DecidableEq

/-- Response of `mercadopago.preapproval.create`. -/
structure PreapprovalCreateResponse where
  id : String
  init_point : String
deriving Repr, DecidableEq

/-- The fields of the preapproval creation payload the embedding tracks
(reason string, dates and URLs carry no claim-relevant information). -/
structure SubscriptionPayload where
  external_reference : Nat
  payer_email : String
  transaction_amount : Nat
  status : String
deriving Repr, DecidableEq

/-- The configured gateway client (`config/mercadoPago`). -/
structure PaymentGateway where
  isConfigured : Bool
  create : SubscriptionPayload → Except GwError PreapprovalCreateResponse

/-- Message thrown when the gateway SDK is not configured
(`subscription.service.js:39`). -/
def serviceUnavailableMessage : String :=
  "O serviço de pagamento não está disponível no momento. Por favor, contate o suporte."

/-- Fallback message of the `createCheckoutForPlan` catch block
(`subscription.service.js:98`). -/
def paymentCommunicationErrorMessage : String :=
  "Erro ao comunicar com o serviço de pagamento."

/-- An error reaching the `createCheckoutForPlan` catch block: either a
plain `throw new Error(msg)` (no `response` payload) or a gateway error. -/
inductive CheckoutInternalError where
  | thrown (message : String)
  | gateway (e : GwError)
deriving Repr, DecidableEq

/-- Value returned by a successful checkout creation. -/
structure CheckoutResult where
  checkoutUrl : String
  preapprovalId : String
deriving Repr, DecidableEq

/-- Body of the `try` block of `createCheckoutForPlan`
(`subscription.service.js:42-95`).  The first component of the result is
the store after the run - a failed gateway call leaves the freshly created
`pending` order behind (not rolled back). -/
def createCheckoutCore (gw : PaymentGateway) (s : St) (newOrderId userId planId : Nat) :
    St × Except CheckoutInternalError CheckoutResult :=
  match findUser s userId with
  | none => (s, .error (.thrown "Usuário não encontrado."))
  | some user =>
    match findPlan s planId with
    | none => (s, .error (.thrown "Plano não encontrado."))
    | some plan =>
      let subscriptionOrder : SubscriptionOrder :=
        { id := newOrderId, userId := user.id, planId := plan.id,
          totalAmount := plan.price, status := .pending,
          mercadopagoPreferenceId := none, mercadopagoPaymentId := none,
          mercadopagoPaymentDetails := none }
      let s1 : St := { s with orders := s.orders ++ [subscriptionOrder] }
      let payload : SubscriptionPayload :=
        { external_reference := subscriptionOrder.id, payer_email := user.email,
          transaction_amount := plan.price, status := "pending" }
      match gw.create payload with
      | .error e => (s1, .error (.gateway e))
      | .ok responseBody =>
        let s2 := updateOrder s1
          { subscriptionOrder with mercadopagoPreferenceId := some responseBody.id }
        (s2, .ok { checkoutUrl := responseBody.init_point, preapprovalId := responseBody.id })

/-- `createCheckoutForPlan` (`subscription.service.js:36-100`): the
`isConfigured` guard sits outside the `try`, and the `catch` rethrows
`new Error(error.response?.data?.message || 'Erro ao comunicar com o
serviço de pagamento.')` - so a plain thrown error (user/plan not found)
loses its message. -/
def createCheckoutForPlan (gw : PaymentGateway) (s : St) (newOrderId userId planId : Nat) :
    St × Except String CheckoutResult :=
  if gw.isConfigured = false then
    (s, .error serviceUnavailableMessage)
  else
    match createCheckoutCore gw s newOrderId userId planId with
    | (s1, .ok r) => (s1, .ok r)
    | (s1, .error e) =>
      (s1, .error (match e with
        | .thrown _ => paymentCommunicationErrorMessage
        | .gateway g =>
          match g.responseDataMessage with
          | some m => if m = "" then paymentCommunicationErrorMessage else m
          | none => paymentCommunicationErrorMessage))

/-- Projection of a user's active plan returned by `getUserActivePlan`.
Timestamps are in days, so `Math.ceil((expiresAt - now) / msPerDay)`
is `expiresAt - now`. -/
structure ActivePlanInfo where
  plan : Plan
  expiresAt : Int
  remainingDays : Int
deriving Repr, DecidableEq

/-- `getUserActivePlan` (`subscription.service.js:295-325`): a read that
also clears `planId`/`planExpiresAt` (to null, not to `now`) on a user
whose entitlement is found inactive. -/
def getUserActivePlan (now : Int) (s : St) (userId : Nat) :
    St × Except String (Option ActivePlanInfo) :=
  match findUser s userId with
  | none => (s, .error "Usuário não encontrado.")
  | some user =>
    let currentPlan : Option Plan := user.planId.bind (findPlan s)
    let cleanup : St × Except String (Option ActivePlanInfo) :=
      if user.planId.isSome then
        (updateUser s { user with planId := none, planExpiresAt := none }, .ok none)
      else (s, .ok none)
    match currentPlan, user.planExpiresAt with
    | some plan, some exp =>
      if now < exp then
        (s, .ok (some { plan := plan, expiresAt := exp, remainingDays := exp - now }))
      else cleanup
    | _, _ => cleanup

/-! ## Store lemmas -/

/-- Replacing the row whose id matches `b` makes a successful keyed lookup
return `b`, provided the lookup previously returned a row with the same
key. -/
theorem find_map_replace {α : Type} (key : α → Nat) (l : List α) (k : Nat) (a b : α)
    (ha : l.find? (fun x => key x == k) = some a) (hb : key b = key a) :
    (l.map (fun x => if key x == key b then b else x)).find? (fun x => key x == k) = some b := by
  induction l with
  | nil => simp at ha
  | cons h t ih =>
    by_cases hk : key h = k
    · have hhead : List.find? (fun x => key x == k) (h :: t) = some h :=
        List.find?_cons_of_pos t (by simp [hk])
      rw [hhead] at ha
      injection ha with hha
      have hcb : (key h == key b) = true := by simp [hb, ← hha]
      have hmap : List.map (fun x => if key x == key b then b else x) (h :: t)
          = b :: List.map (fun x => if key x == key b then b else x) t := by
        simp only [List.map_cons]
        rw [if_pos hcb]
      rw [hmap]
      exact List.find?_cons_of_pos _ (by simp [hb, ← hha, hk])
    · have hne : ¬ ((fun x => key x == k) h = true) := by simp [hk]
      have hstep : List.find? (fun x => key x == k) (h :: t)
          = List.find? (fun x => key x == k) t :=
        List.find?_cons_of_neg t hne
      rw [hstep] at ha
      have hak : (key a == k) = true := @List.find?_some α (fun x => key x == k) a t ha
      have hbk : key b = k := by rw [hb]; exact beq_iff_eq.mp hak
      have hcb : ¬ ((key h == key b) = true) := by simp [hbk, hk]
      have hmap : List.map (fun x => if key x == key b then b else x) (h :: t)
          = h :: List.map (fun x => if key x == key b then b else x) t := by
        simp only [List.map_cons]
        rw [if_neg hcb]
      rw [hmap]
      have hstep2 : List.find? (fun x => key x == k)
            (h :: List.map (fun x => if key x == key b then b else x) t)
          = List.find? (fun x => key x == k)
              (List.map (fun x => if key x == key b then b else x) t) :=
        List.find?_cons_of_neg _ hne
      rw [hstep2]
      exact ih ha

theorem findUser_updateUser_found (s : St) (uid : Nat) (u u1 : User)
    (h : findUser s uid = some u) (hid : u1.id = u.id) :
    findUser (updateUser s u1) uid = some u1 :=
  find_map_replace User.id s.users uid u u1 h hid

theorem findOrder_updateOrder_found (s : St) (oid : Nat) (o o1 : SubscriptionOrder)
    (h : findOrder s oid = some o) (hid : o1.id = o.id) :
    findOrder (updateOrder s o1) oid = some o1 :=
  find_map_replace SubscriptionOrder.id s.orders oid o o1 h hid

@[simp] theorem findUser_updateOrder (s : St) (o : SubscriptionOrder) (uid : Nat) :
    findUser (updateOrder s o) uid = findUser s uid := rfl

@[simp] theorem findOrder_updateUser (s : St) (u : User) (oid : Nat) :
    findOrder (updateUser s u) oid = findOrder s oid := rfl

@[simp] theorem findPlan_updateOrder (s : St) (o : SubscriptionOrder) (pid : Nat) :
    findPlan (updateOrder s o) pid = findPlan s pid := rfl

@[simp] theorem findPlan_updateUser (s : St) (u : User) (pid : Nat) :
    findPlan (updateUser s u) pid = findPlan s pid := rfl

/-! ## Concrete fixtures used by the claim theorems -/

/-- A 30-day plan. -/
def proPlan : Plan := { id := 5, name := "Pro", price := 2990, durationInDays := 30 }

/-- A user with no entitlement and some accumulated usage. -/
def freshUser : User :=
  { id := 1, email := "ana@example.com", planId := none, planExpiresAt := none,
    transcriptionsUsedCount := 3, transcriptionMinutesUsed := 12,
    agentUsesUsed := 1, assistantUsesUsed := 2 }

/-- A user whose plan 5 entitlement runs until day 100. -/
def activeUser : User :=
  { id := 1, email := "ana@example.com", planId := some 5, planExpiresAt := some 100,
    transcriptionsUsedCount := 3, transcriptionMinutesUsed := 12,
    agentUsesUsed := 1, assistantUsesUsed := 2 }

/-- A user currently on a different plan (9) that is still unexpired. -/
def otherPlanUser : User :=
  { id := 1, email := "ana@example.com", planId := some 9, planExpiresAt := some 50,
    transcriptionsUsedCount := 3, transcriptionMinutesUsed := 12,
    agentUsesUsed := 1, assistantUsesUsed := 2 }

/-- Order 0 for user 1 / plan 5, still pending, provider id recorded. -/
def pendingOrder : SubscriptionOrder :=
  { id := 0, userId := 1, planId := 5, totalAmount := 2990, status := .pending,
    mercadopagoPreferenceId := some "pre-1", mercadopagoPaymentId := none,
    mercadopagoPaymentDetails := none }

/-- Order 0 already in the terminal `approved` state. -/
def approvedOrder : SubscriptionOrder := { pendingOrder with status := .approved }

/-- Gateway whose preapproval `pre-1` is `authorized` and references order 0. -/
def authGw : String → Option Preapproval := fun pid =>
  if pid = "pre-1" then
    some { id := "pre-1", status := "authorized", external_reference := some 0 }
  else none

/-- Gateway whose preapproval `pre-1` is `cancelled` and references order 0. -/
def cancelGw : String → Option Preapproval := fun pid =>
  if pid = "pre-1" then
    some { id := "pre-1", status := "cancelled", external_reference := some 0 }
  else none

/-- Gateway whose preapproval `pre-1` is back to `pending` and references order 0. -/
def pendingGw : String → Option Preapproval := fun pid =>
  if pid = "pre-1" then
    some { id := "pre-1", status := "pending", external_reference := some 0 }
  else none

/-- The webhook body delivered for preapproval `pre-1`. -/
def preNotif : WebhookNotification := { type := "preapproval", dataId := "pre-1" }

/-- Store: fresh user, plan 5, order 0 pending. -/
def authSt : St := { users := [freshUser], plans := [proPlan], orders := [pendingOrder] }

/-- Store: entitled user, plan 5, order 0 pending. -/
def cancelSt : St := { users := [activeUser], plans := [proPlan], orders := [pendingOrder] }

/-- Store: user on another plan, plan 5, order 0 pending. -/
def c3St : St := { users := [otherPlanUser], plans := [proPlan], orders := [pendingOrder] }

/-- Store: entitled user, plan 5, order 0 already approved. -/
def approvedSt : St := { users := [activeUser], plans := [proPlan], orders := [approvedOrder] }

/-! ## Claim theorems -/

/-- Claim C1: the spec requires that delivering the same `authorized`
preapproval notification twice extends `planExpiresAt` exactly once,
because the entitlement side effect is supposed to fire only when the
order status changes.  The code has no such gate: evaluating
`processWebhook` twice on the same notification at `now = 0` with a 30-day
plan yields `planExpiresAt = 30` after the first delivery and `60` after
the duplicate - the grant fired again and double-extended. -/
theorem webhook_duplicate_authorized_double_extends :
    ((findUser (processWebhook authGw 0 authSt preNotif) 1).map User.planExpiresAt
        = some (some 30)) ∧
    ((findUser (processWebhook authGw 0 (processWebhook authGw 0 authSt preNotif) preNotif) 1).map
        User.planExpiresAt = some (some 60)) := by decide

/-- Claim C2: the spec says the poller applies the identical transition and
side-effect logic as the webhook, producing the same final order status and
user entitlement state.  On a pending order whose provider state is
`cancelled`, the webhook revokes the entitlement (`planId := null`,
`planExpiresAt := now`) while the poller only flips the order status and
leaves the user's `planId = 5`, `planExpiresAt = 100` untouched: the two
reconciliation paths are not equivalent. -/
theorem poller_webhook_entitlement_diverge :
    ((findUser (processWebhook cancelGw 0 cancelSt preNotif) 1).map User.planId
        = some none) ∧
    ((findUser (processWebhook cancelGw 0 cancelSt preNotif) 1).map User.planExpiresAt
        = some (some 0)) ∧
    ((findOrder (processWebhook cancelGw 0 cancelSt preNotif) 0).map SubscriptionOrder.status
        = some OrderStatus.cancelled) ∧
    ((findOrder (checkSubscriptionOrderStatus cancelGw 0 cancelSt 0).state 0).map
        SubscriptionOrder.status = some OrderStatus.cancelled) ∧
    ((findUser (checkSubscriptionOrderStatus cancelGw 0 cancelSt 0).state 1).map User.planId
        = some (some 5)) ∧
    ((findUser (checkSubscriptionOrderStatus cancelGw 0 cancelSt 0).state 1).map
        User.planExpiresAt = some (some 100)) := by decide

/-- Claim C4: the spec says `approved` and `cancelled` are terminal and an
order is never set back to `pending` by a late notification.  Evaluating
the webhook on order 0 in `approved` status with a notification whose
re-fetched provider status is `pending` (the transition table's
anything-else row) shows the order's status rewritten to `pending`: the
webhook's order update is unconditional, so terminal states are re-entered. -/
theorem webhook_reenters_pending_from_approved :
    approvedOrder.status = OrderStatus.approved ∧
    ((findOrder (processWebhook pendingGw 0 approvedSt preNotif) 0).map SubscriptionOrder.status
        = some OrderStatus.pending) := by decide

/-- Claim C5: the spec says a poll observing provider state `cancelled` on a
pending order both cancels the order and revokes the user's entitlement
(`planId := null`, `planExpiresAt := now`).  Evaluating the poller at
`now = 7` on the pending order with provider state `cancelled` shows the
order cancelled but the user untouched: `planId` is still `5` and
`planExpiresAt` still `100` - the poller has no revoke branch. -/
theorem poll_cancelled_does_not_revoke :
    ((findOrder (checkSubscriptionOrderStatus cancelGw 7 cancelSt 0).state 0).map
        SubscriptionOrder.status = some OrderStatus.cancelled) ∧
    ((findUser (checkSubscriptionOrderStatus cancelGw 7 cancelSt 0).state 1).map User.planId
        = some (some 5)) ∧
    ((findUser (checkSubscriptionOrderStatus cancelGw 7 cancelSt 0).state 1).map
        User.planExpiresAt = some (some 100)) ∧
    ¬ ((findUser (checkSubscriptionOrderStatus cancelGw 7 cancelSt 0).state 1).map
        User.planExpiresAt = some (some 7)) := by decide

/-- Claim C3 (counterexample): user 1 is on plan 9 (unexpired, expires at
50) while the grant being applied is for plan 5; the claim predicts the new
expiration is anchored at `now + 30 = 30` because the plans differ, but the
code extends from the current expiration regardless of plan identity and
yields `50 + 30 = 80`. -/
theorem grant_ignores_plan_identity :
    otherPlanUser.planId = some 9 ∧ pendingOrder.planId = 5 ∧
    ((findUser (processWebhook authGw 0 c3St preNotif) 1).map User.planExpiresAt
        = some (some 80)) ∧
    ¬ ((findUser (processWebhook authGw 0 c3St preNotif) 1).map User.planExpiresAt
        = some (some 30)) := by decide

/-- Claim C3 (amended): when an authorized preapproval notification grants a
plan to the order's user, the new expiration is `currentExpiration +
plan.durationInDays` whenever the current expiration is strictly in the
future - regardless of which plan the user currently holds - and
`now + plan.durationInDays` when the current expiration is absent or not in
the future.  (The plan-equality condition of the original claim is not
checked by the code.) -/
theorem webhook_grant_expiration (gw : String → Option Preapproval) (now : Int) (s : St)
    (n : WebhookNotification) (pre : Preapproval) (oid : Nat)
    (order : SubscriptionOrder) (user : User) (plan : Plan)
    (hty : n.type = "preapproval")
    (hgw : gw n.dataId = some pre)
    (href : pre.external_reference = some oid)
    (hst : pre.status = "authorized")
    (hord : findOrder s oid = some order)
    (huser : findUser s order.userId = some user)
    (hplan : findPlan s order.planId = some plan) :
    (∀ t : Int, user.planExpiresAt = some t → now < t →
      (findUser (processWebhook gw now s n) order.userId).map User.planExpiresAt
        = some (some (t + plan.durationInDays))) ∧
    ((user.planExpiresAt = none ∨ ∃ t, user.planExpiresAt = some t ∧ ¬ now < t) →
      (findUser (processWebhook gw now s n) order.userId).map User.planExpiresAt
        = some (some (now + plan.durationInDays))) := by
  have hred : processWebhook gw now s n
      = updateUser
          (updateOrder s { order with
            status := .approved,
            mercadopagoPaymentId := some n.dataId,
            mercadopagoPaymentDetails := some pre })
          { user with
            planId := some plan.id,
            planExpiresAt := some (grantExpiration now user.planExpiresAt plan.durationInDays),
            transcriptionsUsedCount := 0,
            transcriptionMinutesUsed := 0,
            agentUsesUsed := 0,
            assistantUsesUsed := 0 } := by
    simp [processWebhook, processWebhookCore, hty, hgw, href, hst, hord, huser, hplan]
  have hfound : findUser (processWebhook gw now s n) order.userId = some
      { user with
        planId := some plan.id,
        planExpiresAt := some (grantExpiration now user.planExpiresAt plan.durationInDays),
        transcriptionsUsedCount := 0,
        transcriptionMinutesUsed := 0,
        agentUsesUsed := 0,
        assistantUsesUsed := 0 } := by
    rw [hred]
    exact findUser_updateUser_found _ _ user _ (by rw [findUser_updateOrder]; exact huser) rfl
  constructor
  · intro t ht hlt
    rw [hfound]
    simp [grantExpiration, ht, hlt]
  · intro hcase
    rw [hfound]
    rcases hcase with hnone | ⟨t, ht, hnlt⟩
    · simp [grantExpiration, hnone]
    · simp [grantExpiration, ht, hnlt]

/-- Witness for `webhook_grant_expiration`: at `now = 0` user 1 holds plan 9
until 50, the gateway authorizes order 0 for plan 5 (30 days), and the
resulting expiration is `50 + 30`. -/
theorem webhook_grant_expiration_witness :
    (findUser (processWebhook authGw 0 c3St preNotif) 1).map User.planExpiresAt
      = some (some 80) := by
  have h := (webhook_grant_expiration authGw 0 c3St preNotif
      { id := "pre-1", status := "authorized", external_reference := some 0 } 0
      pendingOrder otherPlanUser proPlan rfl rfl rfl rfl rfl rfl rfl).1 50 rfl (by decide)
  simpa using h

/-- Store for checkout-creation scenarios: user 1 and plan 5, no orders. -/
def checkoutSt : St := { users := [freshUser], plans := [proPlan], orders := [] }

/-- Configured gateway whose creation call succeeds. -/
def gwCreateOk : PaymentGateway :=
  { isConfigured := true,
    create := fun _ => .ok { id := "pre-9", init_point := "https://mp.example/init" } }

/-- Configured gateway whose creation call fails without a provider message. -/
def gwCreateFailSilent : PaymentGateway :=
  { isConfigured := true, create := fun _ => .error { responseDataMessage := none } }

/-- Configured gateway whose creation call fails with a provider message. -/
def gwCreateFailMsg : PaymentGateway :=
  { isConfigured := true, create := fun _ => .error { responseDataMessage := some "cc_rejected" } }

/-- Gateway that is not configured at all. -/
def gwUnconfigured : PaymentGateway :=
  { isConfigured := false, create := fun _ => .error { responseDataMessage := none } }

/-- Claim C6 (counterexample): with a configured gateway, requesting a
checkout for a missing user (id 99) surfaces exactly the generic
payment-communication message - the same error a failed gateway call
produces - and not the distinct not-found message thrown internally: the
catch block of `createCheckoutForPlan` rebuilds the error from
`error.response?.data?.message`, losing the not-found message, so the
not-found and gateway failure modes are not surfaced distinctly. -/
theorem checkout_notfound_conflated :
    ((createCheckoutForPlan gwCreateOk checkoutSt 0 99 5).2
        = .error paymentCommunicationErrorMessage) ∧
    ((createCheckoutForPlan gwCreateFailSilent checkoutSt 0 1 5).2
        = .error paymentCommunicationErrorMessage) ∧
    paymentCommunicationErrorMessage ≠ "Usuário não encontrado." :=
  ⟨rfl, rfl, by decide⟩

/-- Claim C6 (amended): checkout creation fails with the distinct
service-unavailable message when the gateway is not configured; with the
generic payment-communication message when the user or the plan does not
exist (the internally thrown not-found message is replaced by the catch
block); and, when the gateway call itself fails, with the provider's
response message when one is present and non-empty, the generic message
otherwise.  Only the unconfigured-gateway failure is distinguishable from
a provider failure. -/
theorem checkout_error_surfacing (gw : PaymentGateway) (s : St)
    (newOrderId userId planId : Nat) :
    (gw.isConfigured = false →
      (createCheckoutForPlan gw s newOrderId userId planId).2
        = .error serviceUnavailableMessage) ∧
    (gw.isConfigured = true → findUser s userId = none →
      (createCheckoutForPlan gw s newOrderId userId planId).2
        = .error paymentCommunicationErrorMessage) ∧
    (gw.isConfigured = true → ∀ user, findUser s userId = some user →
      findPlan s planId = none →
      (createCheckoutForPlan gw s newOrderId userId planId).2
        = .error paymentCommunicationErrorMessage) ∧
    (gw.isConfigured = true → ∀ user plan e, findUser s userId = some user →
      findPlan s planId = some plan → (∀ p, gw.create p = .error e) →
      (createCheckoutForPlan gw s newOrderId userId planId).2
        = .error (match e.responseDataMessage with
            | some m => if m = "" then paymentCommunicationErrorMessage else m
            | none => paymentCommunicationErrorMessage)) := by
  refine ⟨?_, ?_, ?_, ?_⟩
  · intro hcfg
    simp [createCheckoutForPlan, hcfg]
  · intro hcfg hu
    simp [createCheckoutForPlan, createCheckoutCore, hcfg, hu]
  · intro hcfg user hu hp
    simp [createCheckoutForPlan, createCheckoutCore, hcfg, hu, hp]
  · intro hcfg user plan e hu hp hgwf
    simp [createCheckoutForPlan, createCheckoutCore, hcfg, hu, hp, hgwf]

/-- Witness for `checkout_error_surfacing`: the three failure modes at
concrete inputs. -/
theorem checkout_error_surfacing_witness :
    ((createCheckoutForPlan gwUnconfigured checkoutSt 0 1 5).2
        = .error serviceUnavailableMessage) ∧
    ((createCheckoutForPlan gwCreateOk checkoutSt 0 99 7).2
        = .error paymentCommunicationErrorMessage) ∧
    ((createCheckoutForPlan gwCreateFailMsg checkoutSt 0 1 5).2
        = .error "cc_rejected") := by
  refine ⟨(checkout_error_surfacing gwUnconfigured checkoutSt 0 1 5).1 rfl,
          (checkout_error_surfacing gwCreateOk checkoutSt 0 99 7).2.1 rfl rfl, ?_⟩
  have h := (checkout_error_surfacing gwCreateFailMsg checkoutSt 0 1 5).2.2.2 rfl
    freshUser proPlan { responseDataMessage := some "cc_rejected" } rfl rfl (fun _ => rfl)
  simpa using h

/-- Claim C7: polling an order that is already `approved` performs zero
gateway calls and returns the store and the order unchanged. -/
theorem poll_approved_returns_immediately (gw : String → Option Preapproval) (now : Int)
    (s : St) (oid : Nat) (order : SubscriptionOrder)
    (hord : findOrder s oid = some order) (happ : order.status = OrderStatus.approved) :
    checkSubscriptionOrderStatus gw now s oid = ⟨s, .ok (some order), 0⟩ := by
  simp [checkSubscriptionOrderStatus, hord, happ]

/-- Witness for `poll_approved_returns_immediately`: polling approved order 0. -/
theorem poll_approved_returns_immediately_witness :
    checkSubscriptionOrderStatus cancelGw 0 approvedSt 0
      = ⟨approvedSt, .ok (some approvedOrder), 0⟩ :=
  poll_approved_returns_immediately cancelGw 0 approvedSt 0 approvedOrder rfl rfl

/-- Claim C8: a webhook notification whose type is not `preapproval`, or
whose re-fetched provider record lacks an `external_reference`, or whose
`external_reference` matches no stored order, leaves the store (every order
and user record) unchanged - a no-op, not an error. -/
theorem webhook_noop_cases (gw : String → Option Preapproval) (now : Int) (s : St)
    (n : WebhookNotification)
    (h : n.type ≠ "preapproval" ∨
      ∃ pre, gw n.dataId = some pre ∧
        (pre.external_reference = none ∨
          ∃ oid, pre.external_reference = some oid ∧ findOrder s oid = none)) :
    processWebhook gw now s n = s := by
  rcases h with hty | ⟨pre, hgw, hrest⟩
  · simp [processWebhook, processWebhookCore, hty]
  · by_cases hty : n.type = "preapproval"
    · rcases hrest with href | ⟨oid, href, hord⟩
      · simp [processWebhook, processWebhookCore, hty, hgw, href]
      · simp [processWebhook, processWebhookCore, hty, hgw, href, hord]
    · simp [processWebhook, processWebhookCore, hty]

/-- A notification of an unrelated topic. -/
def irrelevantNotif : WebhookNotification := { type := "payment", dataId := "pay-1" }

/-- Witness for `webhook_noop_cases`: a `payment`-type notification leaves
the store unchanged. -/
theorem webhook_noop_cases_witness :
    processWebhook authGw 0 authSt irrelevantNotif = authSt :=
  webhook_noop_cases authGw 0 authSt irrelevantNotif (Or.inl (by decide))

/-- Claim C9: the webhook endpoint never propagates an error to the caller:
whatever the gateway, store state and notification, the top-level catch
swallows internal failures and the handler acknowledges success. -/
theorem webhook_always_acknowledges (gw : String → Option Preapproval) (now : Int) (s : St)
    (n : WebhookNotification) :
    ∃ s1, handleWebhook gw now s n = Except.ok s1 := by
  cases hcore : processWebhookCore gw now s n with
  | ok s1 => exact ⟨s1, by simp [handleWebhook, hcore]⟩
  | error s1 => exact ⟨s1, by simp [handleWebhook, hcore]⟩

/-- Claim C10: for an existing user whose `planId` is set but whose
entitlement is not active (no current plan record, no expiration, or an
expiration not in the future), `getUserActivePlan` returns `none` AND
writes the user back with `planId := null` and `planExpiresAt := null`
(not `now`, as the webhook's revoke does): the read mutates the store. -/
theorem getUserActivePlan_clears_stale_entitlement (now : Int) (s : St) (userId : Nat)
    (user : User)
    (hu : findUser s userId = some user)
    (hplanId : user.planId.isSome = true)
    (hinactive : ∀ plan exp, user.planId.bind (findPlan s) = some plan →
        user.planExpiresAt = some exp → ¬ now < exp) :
    getUserActivePlan now s userId
      = (updateUser s { user with planId := none, planExpiresAt := none }, .ok none) := by
  simp only [getUserActivePlan, hu]
  rcases hcp : user.planId.bind (findPlan s) with _ | plan
  · simp [hcp, hplanId]
  · rcases hexp : user.planExpiresAt with _ | exp
    · simp [hcp, hexp, hplanId]
    · have hnlt : ¬ now < exp := hinactive plan exp hcp hexp
      simp [hcp, hexp, hnlt, hplanId]

/-- Witness for `getUserActivePlan_clears_stale_entitlement`: at `now = 200`
user 1's plan-5 entitlement expired at 100; the read returns `none` and
clears both entitlement fields to `null`. -/
theorem getUserActivePlan_clears_stale_entitlement_witness :
    getUserActivePlan 200 cancelSt 1
      = (updateUser cancelSt { activeUser with planId := none, planExpiresAt := none },
         .ok none) :=
  getUserActivePlan_clears_stale_entitlement 200 cancelSt 1 activeUser rfl rfl
    (fun plan exp hp he => by
      have h100 : some (100 : Int) = some exp := he
      have hexp : (100 : Int) = exp := Option.some.inj h100
      subst hexp
      decide)

end ApiTranscript
